import Mathlib

/-!
Shallow embedding of the Pervasive Displays COG-gen-2 e-paper driver core
(`PlatformWithOS/driver-common/epd_v2.c`) and proofs about it.

Machine integers are modelled as `Nat` (all byte values stay below 256 by
masking) and C `int` arithmetic that can go negative is modelled as `Int`
with `Int.tdiv`, which truncates toward zero exactly like C99 division.
-/

/-- `EPD_size` enumeration, from `epd_v2.h` / the size switch in `EPD_create`. -/
inductive EPD_size where
  | EPD_1_44
  | EPD_2_0
  | EPD_2_7
deriving DecidableEq, Repr

/-- `EPD_stage` enumeration from `epd_v2.c`. -/
inductive EPD_stage where
  | EPD_inverse
  | EPD_normal
deriving DecidableEq, Repr

/-- `EPD_error` status codes (`EPD_OK`, `EPD_UNSUPPORTED_COG`, `EPD_PANEL_BROKEN`,
`EPD_DC_FAILED`). -/
inductive EPD_error where
  | EPD_OK
  | EPD_UNSUPPORTED_COG
  | EPD_PANEL_BROKEN
  | EPD_DC_FAILED
deriving DecidableEq, Repr

/-- `compensation_type` from `epd_v2.c` (nine `uint16_t` fields). -/
structure compensation_type where
  stage1_repeat : Nat
  stage1_step : Nat
  stage1_block : Nat
  stage2_repeat : Nat
  stage2_t1 : Nat
  stage2_t2 : Nat
  stage3_repeat : Nat
  stage3_step : Nat
  stage3_block : Nat
deriving DecidableEq, Repr

/-- The geometry fields of `EPD_struct` that the size switch in `EPD_create` fills in. -/
structure Geometry where
  lines_per_display : Nat
  dots_per_line : Nat
  bytes_per_line : Nat
  bytes_per_scan : Nat
deriving DecidableEq, Repr

/-- The size switch of `EPD_create` (`epd_v2.c` lines 137-179): geometry per panel size.
The default case leaves the `EPD_1_44` values in place. -/
def geometry : EPD_size → Geometry
  | .EPD_1_44 => { lines_per_display := 96, dots_per_line := 128,
                   bytes_per_line := 128 / 8, bytes_per_scan := 96 / 4 }
  | .EPD_2_0 => { lines_per_display := 96, dots_per_line := 200,
                  bytes_per_line := 200 / 8, bytes_per_scan := 96 / 4 }
  | .EPD_2_7 => { lines_per_display := 176, dots_per_line := 264,
                  bytes_per_line := 264 / 8, bytes_per_scan := 176 / 4 }

/-- `compensation_144` table from `EPD_set_temperature`, indexed by temperature band 0..2. -/
def compensation_144 (band : Nat) : compensation_type :=
  match band with
  | 0 => ⟨2, 6, 42, 4, 392, 392, 2, 6, 42⟩
  | 1 => ⟨4, 2, 16, 4, 155, 155, 4, 2, 16⟩
  | _ => ⟨4, 2, 16, 4, 155, 155, 4, 2, 16⟩

/-- `compensation_200` table from `EPD_set_temperature`, indexed by temperature band 0..2. -/
def compensation_200 (band : Nat) : compensation_type :=
  match band with
  | 0 => ⟨2, 6, 42, 4, 392, 392, 2, 6, 42⟩
  | 1 => ⟨2, 2, 48, 4, 196, 196, 2, 2, 48⟩
  | _ => ⟨4, 2, 48, 4, 196, 196, 4, 2, 48⟩

/-- `compensation_270` table from `EPD_set_temperature`, indexed by temperature band 0..2. -/
def compensation_270 (band : Nat) : compensation_type :=
  match band with
  | 0 => ⟨2, 8, 64, 4, 392, 392, 2, 8, 64⟩
  | 1 => ⟨2, 8, 64, 4, 196, 196, 2, 8, 64⟩
  | _ => ⟨4, 8, 64, 4, 196, 196, 4, 8, 64⟩

/-- Line-buffer allocation size from `EPD_create` (lines 182-183):
`2 * bytes_per_line + bytes_per_scan + 3` (command byte, border byte and filler byte). -/
def line_buffer_size (g : Geometry) : Nat :=
  2 * g.bytes_per_line + g.bytes_per_scan + 3

/-- Odd-pixel recoding of one source byte in `one_line` (lines 630-644):
`pixels = data[b-1] & 0x55`, then the stage switch. -/
def odd_transform (stage : EPD_stage) (b : Nat) : Nat :=
  let pixels := b &&& 0x55
  match stage with
  | .EPD_inverse => 0xaa ||| (pixels ^^^ 0x55)
  | .EPD_normal => 0xaa ||| pixels

/-- Even-pixel recoding of one source byte in `one_line` (lines 659-674):
`pixels = data[b] & 0xaa`, stage switch, then the pixel-pair repack `p1..p4`. -/
def even_transform (stage : EPD_stage) (b : Nat) : Nat :=
  let pixels0 := b &&& 0xaa
  let pixels :=
    match stage with
    | .EPD_inverse => 0xaa ||| ((pixels0 ^^^ 0xaa) >>> 1)
    | .EPD_normal => 0xaa ||| (pixels0 >>> 1)
  let p1 := (pixels >>> 6) &&& 0x03
  let p2 := (pixels >>> 4) &&& 0x03
  let p3 := (pixels >>> 2) &&& 0x03
  let p4 := (pixels >>> 0) &&& 0x03
  (p1 <<< 0) ||| (p2 <<< 2) ||| (p3 <<< 4) ||| (p4 <<< 6)

/-- Odd-pixel loop of `one_line` (lines 630-645): `b` runs from `bytes_per_line`
down to 1 and the `i`-th emitted byte uses `data[bytes_per_line - 1 - i]`;
with a null `data` the fixed value is emitted instead.
`data` is the row as a byte function (index into the supplied row). -/
def odd_region (bpl : Nat) (data : Option (Nat → Nat)) (fixed_value : Nat)
    (stage : EPD_stage) : List Nat :=
  (List.range bpl).map fun i =>
    match data with
    | some d => odd_transform stage (d (bpl - 1 - i))
    | none => fixed_value

/-- Scan-selector loop of `one_line` (lines 647-656).
`scan_pos = (lines_per_display - line - 1) / 4` in C `int` arithmetic
(truncating division, so negative for the `0x7fff` sentinel), and
`scan_shift = 2 * (line & 0x03)`. -/
def scan_region (lines_per_display bps line : Nat) : List Nat :=
  let scan_pos : Int := Int.tdiv ((lines_per_display : Int) - (line : Int) - 1) 4
  let scan_shift : Nat := 2 * (line &&& 0x03)
  (List.range bps).map fun (b : Nat) =>
    if scan_pos = (b : Int) then 0x03 <<< scan_shift else 0x00

/-- Even-pixel loop of `one_line` (lines 659-678): `b` runs from 0 to
`bytes_per_line - 1` in forward order. -/
def even_region (bpl : Nat) (data : Option (Nat → Nat)) (fixed_value : Nat)
    (stage : EPD_stage) : List Nat :=
  (List.range bpl).map fun i =>
    match data with
    | some d => even_transform stage (d i)
    | none => fixed_value

/-- The full byte sequence `one_line` writes into the line buffer and sends
(lines 623-681): `0x72` prefix, border byte, odd pixels, scan selector, even pixels. -/
def one_line_buffer (g : Geometry) (line : Nat) (data : Option (Nat → Nat))
    (fixed_value : Nat) (stage : EPD_stage) (border_byte : Nat) : List Nat :=
  0x72 :: border_byte ::
    (odd_region g.bytes_per_line data fixed_value stage ++
     scan_region g.lines_per_display g.bytes_per_scan line ++
     even_region g.bytes_per_line data fixed_value stage)

/-- Per-byte odd transform as the specification words it:
normal `0xaa | (b & 0x55)`, inverse `0xaa | ((b & 0x55) ^ 0x55)`. -/
def spec_odd_byte (stage : EPD_stage) (b : Nat) : Nat :=
  match stage with
  | .EPD_normal => 0xaa ||| (b &&& 0x55)
  | .EPD_inverse => 0xaa ||| ((b &&& 0x55) ^^^ 0x55)

/-- Bit-pair reversal as the specification words it: extract the four 2-bit pairs
`p1,p2,p3,p4` from bits 7..6, 5..4, 3..2, 1..0 and reassemble them as
`(p1<<0)|(p2<<2)|(p3<<4)|(p4<<6)`. -/
def spec_pair_reverse (x : Nat) : Nat :=
  let p1 := (x >>> 6) &&& 0x03
  let p2 := (x >>> 4) &&& 0x03
  let p3 := (x >>> 2) &&& 0x03
  let p4 := (x >>> 0) &&& 0x03
  (p1 <<< 0) ||| (p2 <<< 2) ||| (p3 <<< 4) ||| (p4 <<< 6)

/-- Per-byte even transform as the specification words it: the bit-pair-reversed
form of `0xaa | ((b & 0xaa) >> 1)` (normal) resp. `0xaa | (((b & 0xaa) ^ 0xaa) >> 1)`
(inverse). -/
def spec_even_byte (stage : EPD_stage) (b : Nat) : Nat :=
  match stage with
  | .EPD_normal => spec_pair_reverse (0xaa ||| ((b &&& 0xaa) >>> 1))
  | .EPD_inverse => spec_pair_reverse (0xaa ||| (((b &&& 0xaa) ^^^ 0xaa) >>> 1))

lemma odd_transform_eq_spec (stage : EPD_stage) (b : Nat) :
    odd_transform stage b = spec_odd_byte stage b := by
  cases stage <;> rfl

lemma even_transform_eq_spec (stage : EPD_stage) (b : Nat) :
    even_transform stage b = spec_even_byte stage b := by
  cases stage <;> rfl

lemma odd_region_some (R : List Nat) (stage : EPD_stage) (fv : Nat) :
    odd_region R.length (some fun i => R.getD i 0) fv stage
      = R.reverse.map (spec_odd_byte stage) := by
  apply List.ext_getElem
  · simp [odd_region]
  · intro i h1 h2
    simp only [odd_region, List.getElem_map, List.getElem_range, List.getElem_reverse]
    have hlen : 0 < R.length := by
      simp [odd_region] at h1
      omega
    have hidx : R.length - 1 - i < R.length := by omega
    rw [List.getD_eq_getElem _ _ hidx, odd_transform_eq_spec]

lemma even_region_some (R : List Nat) (stage : EPD_stage) (fv : Nat) :
    even_region R.length (some fun i => R.getD i 0) fv stage
      = R.map (spec_even_byte stage) := by
  apply List.ext_getElem
  · simp [even_region]
  · intro i h1 h2
    simp only [even_region, List.getElem_map, List.getElem_range]
    have hi : i < R.length := by simpa using h2
    rw [List.getD_eq_getElem _ _ hi, even_transform_eq_spec]

lemma odd_region_none (bpl : Nat) (stage : EPD_stage) (fv : Nat) :
    odd_region bpl none fv stage = List.replicate bpl fv := by
  simp [odd_region, List.eq_replicate_iff]

lemma even_region_none (bpl : Nat) (stage : EPD_stage) (fv : Nat) :
    even_region bpl none fv stage = List.replicate bpl fv := by
  simp [even_region, List.eq_replicate_iff]

/-- C1: for a bitmap row `R` of `bytes_per_line` bytes, the line frame built by
`one_line` carries the odd-pixel region in reverse byte order with the
stage-specific odd transform (`f(R[bpl-1]), ..., f(R[0])`) and the even-pixel
region in forward order with the stage-specific bit-pair-reversed even transform
(`g(R[0]), ..., g(R[bpl-1])`); with no data supplied, both pixel regions hold
the fixed byte verbatim. -/
theorem one_line_pixel_regions (g : Geometry) (stage : EPD_stage) (R : List Nat)
    (line fixed_value border_byte : Nat)
    (hR : R.length = g.bytes_per_line) :
    one_line_buffer g line (some fun i => R.getD i 0) fixed_value stage border_byte
      = 0x72 :: border_byte ::
          (R.reverse.map (spec_odd_byte stage) ++
           scan_region g.lines_per_display g.bytes_per_scan line ++
           R.map (spec_even_byte stage)) ∧
    one_line_buffer g line none fixed_value stage border_byte
      = 0x72 :: border_byte ::
          (List.replicate g.bytes_per_line fixed_value ++
           scan_region g.lines_per_display g.bytes_per_scan line ++
           List.replicate g.bytes_per_line fixed_value) := by
  constructor
  · rw [one_line_buffer, ← hR, odd_region_some, even_region_some]
  · rw [one_line_buffer, odd_region_none, even_region_none]

/-- Witness for C1 at a concrete 1.44-inch row. -/
theorem one_line_pixel_regions_witness :
    (List.range 16).length = (geometry .EPD_1_44).bytes_per_line ∧
    (one_line_buffer (geometry .EPD_1_44) 3
        (some fun i => (List.range 16).getD i 0) 0x55 .EPD_inverse 0x00
      = 0x72 :: 0x00 ::
          ((List.range 16).reverse.map (spec_odd_byte .EPD_inverse) ++
           scan_region (geometry .EPD_1_44).lines_per_display
             (geometry .EPD_1_44).bytes_per_scan 3 ++
           (List.range 16).map (spec_even_byte .EPD_inverse)) ∧
     one_line_buffer (geometry .EPD_1_44) 3 none 0x55 .EPD_inverse 0x00
      = 0x72 :: 0x00 ::
          (List.replicate (geometry .EPD_1_44).bytes_per_line 0x55 ++
           scan_region (geometry .EPD_1_44).lines_per_display
             (geometry .EPD_1_44).bytes_per_scan 3 ++
           List.replicate (geometry .EPD_1_44).bytes_per_line 0x55)) :=
  ⟨by decide,
   one_line_pixel_regions (geometry .EPD_1_44) .EPD_inverse (List.range 16)
     3 0x55 0x00 (by decide)⟩

set_option maxRecDepth 8192 in
/-- C2: for every panel size and every line number below `lines_per_display`, the
scan-selector region built by `one_line` is zero except for the single byte at
index `(L - line - 1) / 4`, whose value is `0x03 << (2 * (line mod 4))` and is
non-zero; for the sentinel line number `0x7fff` the whole selector is zero. -/
theorem scan_selector_unique (size : EPD_size) (line : Nat)
    (h : line < (geometry size).lines_per_display) :
    scan_region (geometry size).lines_per_display (geometry size).bytes_per_scan line
      = (List.range (geometry size).bytes_per_scan).map (fun i =>
          if i = ((geometry size).lines_per_display - line - 1) / 4
          then 0x03 <<< (2 * (line % 4)) else 0x00) ∧
    ((geometry size).lines_per_display - line - 1) / 4 < (geometry size).bytes_per_scan ∧
    0x03 <<< (2 * (line % 4)) ≠ 0 ∧
    scan_region (geometry size).lines_per_display (geometry size).bytes_per_scan 0x7fff
      = List.replicate (geometry size).bytes_per_scan 0 := by
  cases size <;> revert line h <;> decide

/-- Witness for C2: the 2.0-inch panel at line 5. -/
theorem scan_selector_unique_witness :
    5 < (geometry .EPD_2_0).lines_per_display ∧
    (scan_region (geometry .EPD_2_0).lines_per_display (geometry .EPD_2_0).bytes_per_scan 5
      = (List.range (geometry .EPD_2_0).bytes_per_scan).map (fun i =>
          if i = ((geometry .EPD_2_0).lines_per_display - 5 - 1) / 4
          then 0x03 <<< (2 * (5 % 4)) else 0x00) ∧
     ((geometry .EPD_2_0).lines_per_display - 5 - 1) / 4 < (geometry .EPD_2_0).bytes_per_scan ∧
     0x03 <<< (2 * (5 % 4)) ≠ 0 ∧
     scan_region (geometry .EPD_2_0).lines_per_display (geometry .EPD_2_0).bytes_per_scan 0x7fff
      = List.replicate (geometry .EPD_2_0).bytes_per_scan 0) :=
  ⟨by decide, scan_selector_unique .EPD_2_0 5 (by decide)⟩

/-- C3: `one_line` writes and sends exactly `1 + 1 + bytes_per_line +
bytes_per_scan + bytes_per_line = 2*bytes_per_line + bytes_per_scan + 2` bytes,
which is one less than the `2*bytes_per_line + bytes_per_scan + 3` bytes that
`EPD_create` allocates for the line buffer, so `one_line` never writes past it. -/
theorem one_line_fits_buffer (size : EPD_size) (line : Nat) (data : Option (Nat → Nat))
    (fixed_value : Nat) (stage : EPD_stage) (border_byte : Nat) :
    (one_line_buffer (geometry size) line data fixed_value stage border_byte).length
        = 2 * (geometry size).bytes_per_line + (geometry size).bytes_per_scan + 2 ∧
    2 * (geometry size).bytes_per_line + (geometry size).bytes_per_scan + 2
        ≤ line_buffer_size (geometry size) := by
  have hodd : (odd_region (geometry size).bytes_per_line data fixed_value stage).length
      = (geometry size).bytes_per_line := by
    simp [odd_region]
  have hscan : (scan_region (geometry size).lines_per_display
      (geometry size).bytes_per_scan line).length = (geometry size).bytes_per_scan := by
    simp only [scan_region]
    rw [List.length_map, List.length_range]
  have heven : (even_region (geometry size).bytes_per_line data fixed_value stage).length
      = (geometry size).bytes_per_line := by
    simp [even_region]
  constructor
  · simp only [one_line_buffer, List.length_cons, List.length_append, hodd, hscan, heven]
    omega
  · simp only [line_buffer_size]
    omega

/-- One `one_line` invocation as seen by the stage drivers: the line number
argument, the `data` pointer (`none` for C null, otherwise the byte offset from
the start of the image buffer), the fixed value, the stage and the border byte. -/
structure LineCall where
  line : Nat
  data : Option Nat
  fixed_value : Nat
  stage : EPD_stage
  border : Nat
deriving DecidableEq, Repr

/-- The C counting loop `for (line = start; line < bound; line += step)` over
`int`, as the list of values `line` takes.  `fuel` is an upper bound on the
iteration count supplied by the caller (the loops in this driver always have
`step ≥ 1`, so `(bound - start).toNat + 1` iterations always suffice). -/
def for_lines : Nat → Int → Int → Int → List Int
  | 0, _, _, _ => []
  | fuel + 1, line, bound, step =>
    if line < bound then line :: for_lines fuel (line + step) bound step else []

/-- Parameter selection at the top of `frame_fixed_13` / `frame_data_13`
(lines 536-547 and 571-582): stage 1 uses the `stage1_*` fields, stage 3 the
`stage3_*` fields.  Returns (repeat, step, block). -/
def frame_13_params (comp : compensation_type) (stage : EPD_stage) : Nat × Nat × Nat :=
  match stage with
  | .EPD_inverse => (comp.stage1_repeat, comp.stage1_step, comp.stage1_block)
  | .EPD_normal => (comp.stage3_repeat, comp.stage3_step, comp.stage3_block)

/-- The values taken by the `line` variable of the stepping loop shared by
`frame_fixed_13` and `frame_data_13` (lines 553 and 588):
`for (line = step - block; line < total_lines + step; line += step)`. -/
def step_lines (g : Geometry) (comp : compensation_type) (stage : EPD_stage) : List Int :=
  let step : Int := (frame_13_params comp stage).2.1
  let block : Int := (frame_13_params comp stage).2.2
  let total_lines : Int := g.lines_per_display
  for_lines ((total_lines + step - (step - block)).toNat + 1)
    (step - block) (total_lines + step) step

/-- The body of the `offset` loop of `frame_fixed_13` (lines 555-563): the
`one_line` call emitted for schedule position `pos = line + offset` on pass
`n` of `rep` passes. -/
def emit_fixed_13 (total_lines : Int) (value : Nat) (stage : EPD_stage)
    (rep n offset : Nat) (pos : Int) : LineCall :=
  if pos < 0 ∨ pos > total_lines then
    { line := 0x7fff, data := none, fixed_value := 0x00,
      stage := .EPD_normal, border := 0x00 }
  else if offset = 0 ∧ n = rep - 1 then
    { line := pos.toNat, data := none, fixed_value := 0x00,
      stage := .EPD_normal, border := 0x00 }
  else
    { line := pos.toNat, data := none, fixed_value := value,
      stage := stage, border := 0x00 }

/-- `frame_fixed_13` (lines 534-566) as the list of `one_line` calls it issues. -/
def frame_fixed_13_calls (g : Geometry) (comp : compensation_type) (value : Nat)
    (stage : EPD_stage) : List LineCall :=
  (List.range (frame_13_params comp stage).1).flatMap fun n =>
    (step_lines g comp stage).flatMap fun line =>
      (List.range (frame_13_params comp stage).2.2).map fun (offset : Nat) =>
        emit_fixed_13 (g.lines_per_display : Int) value stage
          (frame_13_params comp stage).1 n offset (line + (offset : Int))

/-- The body of the `offset` loop of `frame_data_13` (lines 590-598): the
emitted `one_line` call for schedule position `pos = line + offset` on pass `n`
of `rep`.  The working branch passes `&image[pos * bytes_per_line]`, modelled
as the byte offset `pos * bytes_per_line` from the start of the image buffer. -/
def emit_data_13 (g : Geometry) (stage : EPD_stage) (rep n offset : Nat)
    (pos : Int) : LineCall :=
  if pos < 0 ∨ pos > (g.lines_per_display : Int) then
    { line := 0x7fff, data := none, fixed_value := 0x00,
      stage := .EPD_normal, border := 0x00 }
  else if offset = 0 ∧ n = rep - 1 then
    { line := pos.toNat, data := none, fixed_value := 0x00,
      stage := .EPD_normal, border := 0x00 }
  else
    { line := pos.toNat, data := some (pos.toNat * g.bytes_per_line),
      fixed_value := 0x00, stage := stage, border := 0x00 }

/-- `frame_data_13` (lines 569-601) as the list of `one_line` calls it issues. -/
def frame_data_13_calls (g : Geometry) (comp : compensation_type)
    (stage : EPD_stage) : List LineCall :=
  (List.range (frame_13_params comp stage).1).flatMap fun n =>
    (step_lines g comp stage).flatMap fun line =>
      (List.range (frame_13_params comp stage).2.2).map fun (offset : Nat) =>
        emit_data_13 g stage (frame_13_params comp stage).1 n offset
          (line + (offset : Int))

lemma flatMap_length_const {α β : Type} (l : List α) (f : α → List β) (k : Nat)
    (h : ∀ a ∈ l, (f a).length = k) : (l.flatMap f).length = l.length * k := by
  induction l with
  | nil => simp
  | cons a t ih =>
    have ha := h a (List.mem_cons_self a t)
    have ht : ∀ x ∈ t, (f x).length = k := fun x hx => h x (List.mem_cons_of_mem a hx)
    simp only [List.flatMap_cons, List.length_append, List.length_cons, ha, ih ht,
      Nat.succ_mul]
    omega

lemma frame_fixed_13_calls_length (g : Geometry) (comp : compensation_type)
    (value : Nat) (stage : EPD_stage) :
    (frame_fixed_13_calls g comp value stage).length
      = (frame_13_params comp stage).1 *
          ((step_lines g comp stage).length * (frame_13_params comp stage).2.2) := by
  unfold frame_fixed_13_calls
  rw [flatMap_length_const _ _
    ((step_lines g comp stage).length * (frame_13_params comp stage).2.2)
    (fun n hn => by
      rw [flatMap_length_const _ _ (frame_13_params comp stage).2.2
        (fun line hline => by rw [List.length_map, List.length_range])]),
    List.length_range]

lemma emit_fixed_13_shape (total_lines : Int) (value : Nat) (stage : EPD_stage)
    (rep n offset : Nat) (pos : Int) :
    (emit_fixed_13 total_lines value stage rep n offset pos).data = none ∧
    (emit_fixed_13 total_lines value stage rep n offset pos
        = { line := 0x7fff, data := none, fixed_value := 0x00,
            stage := .EPD_normal, border := 0x00 } ∨
     ∃ p : Nat, (p : Int) = pos ∧ (p : Int) ≤ total_lines ∧
       (emit_fixed_13 total_lines value stage rep n offset pos
          = { line := p, data := none, fixed_value := 0x00,
              stage := .EPD_normal, border := 0x00 } ∨
        emit_fixed_13 total_lines value stage rep n offset pos
          = { line := p, data := none, fixed_value := value,
              stage := stage, border := 0x00 })) := by
  unfold emit_fixed_13
  by_cases h1 : pos < 0 ∨ pos > total_lines
  · rw [if_pos h1]
    exact ⟨rfl, Or.inl rfl⟩
  · rw [if_neg h1]
    have hp : ((pos.toNat : Int)) = pos := by omega
    by_cases h2 : offset = 0 ∧ n = rep - 1
    · rw [if_pos h2]
      exact ⟨rfl, Or.inr ⟨pos.toNat, hp, by omega, Or.inl rfl⟩⟩
    · rw [if_neg h2]
      exact ⟨rfl, Or.inr ⟨pos.toNat, hp, by omega, Or.inr rfl⟩⟩

lemma frame_fixed_13_calls_shape (g : Geometry) (comp : compensation_type)
    (value : Nat) (stage : EPD_stage) :
    ∀ c ∈ frame_fixed_13_calls g comp value stage,
      c.data = none ∧
      (c = { line := 0x7fff, data := none, fixed_value := 0x00,
             stage := .EPD_normal, border := 0x00 } ∨
       ∃ p : Nat, p ≤ g.lines_per_display ∧
         (c = { line := p, data := none, fixed_value := 0x00,
                stage := .EPD_normal, border := 0x00 } ∨
          c = { line := p, data := none, fixed_value := value,
                stage := stage, border := 0x00 })) := by
  intro c hc
  simp only [frame_fixed_13_calls, List.mem_flatMap, List.mem_map, List.mem_range] at hc
  obtain ⟨n, hn, line, hline, offset, hoffset, rfl⟩ := hc
  obtain ⟨hdata, hshape⟩ := emit_fixed_13_shape (g.lines_per_display : Int) value stage
    (frame_13_params comp stage).1 n offset (line + (offset : Int))
  refine ⟨hdata, ?_⟩
  rcases hshape with h | ⟨p, hp1, hp2, h⟩
  · exact Or.inl h
  · exact Or.inr ⟨p, by exact_mod_cast hp2, h⟩

lemma step_lines_2_0_25_length :
    (step_lines (geometry .EPD_2_0) (compensation_200 1) .EPD_inverse).length = 72 := by
  decide

/-- C4 counterexample: for the 2.0-inch panel at 25 degrees C (compensation
record `{2,2,48,4,196,196,2,2,48}`), `frame_fixed_13(0xff, EPD_inverse)` does
not issue `2 * 73 * 48 = 7008` `one_line` calls: the stepping loop
`for (line = 2 - 48; line < 96 + 2; line += 2)` iterates 72 times, not 73. -/
theorem frame_fixed_13_count_not_7008 :
    (frame_fixed_13_calls (geometry .EPD_2_0) (compensation_200 1) 0xff
        .EPD_inverse).length ≠ 7008 := by
  rw [frame_fixed_13_calls_length, step_lines_2_0_25_length]
  decide

/-- C4 (amended): for the 2.0-inch panel at 25 degrees C (compensation record
`{2,2,48,4,196,196,2,2,48}`), a single call `frame_fixed_13(0xff, EPD_inverse)`
issues exactly `repeat * 72 * block = 2 * 72 * 48 = 6912` `one_line` calls,
each with a null data pointer, and every call is a dummy line, a blanking line,
or a working line carrying fixed byte `0xff` in stage `EPD_inverse`. -/
theorem frame_fixed_13_count_2_0_25 :
    (frame_fixed_13_calls (geometry .EPD_2_0) (compensation_200 1) 0xff
        .EPD_inverse).length = 2 * 72 * 48 ∧
    ∀ c ∈ frame_fixed_13_calls (geometry .EPD_2_0) (compensation_200 1) 0xff
        .EPD_inverse,
      c.data = none ∧
      (c = { line := 0x7fff, data := none, fixed_value := 0x00,
             stage := .EPD_normal, border := 0x00 } ∨
       ∃ p : Nat, p ≤ 96 ∧
         (c = { line := p, data := none, fixed_value := 0x00,
                stage := .EPD_normal, border := 0x00 } ∨
          c = { line := p, data := none, fixed_value := 0xff,
                stage := .EPD_inverse, border := 0x00 })) := by
  constructor
  · rw [frame_fixed_13_calls_length, step_lines_2_0_25_length]
    decide
  · exact frame_fixed_13_calls_shape (geometry .EPD_2_0) (compensation_200 1) 0xff
      .EPD_inverse

/-- The loop-continuation test of `frame_fixed_timed` (line 530):
`its.it_value.tv_sec > 0 && its.it_value.tv_nsec > 0`.  A `timer_gettime`
result is modelled as the pair `(tv_sec, tv_nsec)`. -/
def continue_cond (t : Int × Int) : Bool :=
  decide (t.1 > 0) && decide (t.2 > 0)

/-- One full frame of `frame_fixed_timed` (lines 523-525): `one_line` for each
`line` from 0 to `lines_per_display - 1` with null data, the fixed value,
stage `EPD_normal` and border `0x00`. -/
def frame_lines (lines_per_display fixed_value : Nat) : List LineCall :=
  (List.range lines_per_display).map fun line =>
    { line := line, data := none, fixed_value := fixed_value,
      stage := .EPD_normal, border := 0x00 }

/-- The do-while loop of `frame_fixed_timed` (lines 522-530) counted in full
frames: the body always runs once, then after each frame the timer is queried
and the loop repeats while the query passes `continue_cond`.  `queries` is the
stream of `timer_gettime` results, one consumed per iteration (an exhausted
stream stops the loop). -/
def timed_loop_count : List (Int × Int) → Nat
  | [] => 1
  | q :: rest => if continue_cond q then 1 + timed_loop_count rest else 1

/-- `frame_fixed_timed` (lines 512-531) as the list of `one_line` calls it
issues, given the stream of `timer_gettime` results. -/
def frame_fixed_timed_calls (lines_per_display fixed_value : Nat) :
    List (Int × Int) → List LineCall
  | [] => frame_lines lines_per_display fixed_value
  | q :: rest =>
    if continue_cond q then
      frame_lines lines_per_display fixed_value ++
        frame_fixed_timed_calls lines_per_display fixed_value rest
    else
      frame_lines lines_per_display fixed_value

/-- The remaining time of a timer query in nanoseconds, as the specification
reads it: `tv_sec` seconds plus `tv_nsec` nanoseconds. -/
def spec_remaining_ns (t : Int × Int) : Int :=
  t.1 * 1000000000 + t.2

/-- C5 counterexample: a query showing 0.5 s remaining (`tv_sec = 0`,
`tv_nsec = 500000000`) has positive remaining time, yet the loop condition
`tv_sec > 0 && tv_nsec > 0` is false, so `frame_fixed_timed` stops after the
current frame instead of continuing as the claim requires. -/
theorem frame_fixed_timed_stops_early :
    spec_remaining_ns (0, 500000000) > 0 ∧
    continue_cond (0, 500000000) = false ∧
    timed_loop_count [(0, 500000000), (1, 1)] = 1 := by
  decide

/-- C5 (amended): `frame_fixed_timed` runs one full frame of
`lines_per_display` `one_line` calls, queries the timer after each frame, and
continues for another frame exactly when the query has both `tv_sec > 0` and
`tv_nsec > 0`; it stops at the first query where either field is non-positive,
which can happen while the remaining time is still positive (for example with
less than one second left). -/
theorem frame_fixed_timed_loop_behavior (lines_per_display fixed_value : Nat)
    (qs : List (Int × Int)) :
    (∀ q : Int × Int, continue_cond q = true ↔ 0 < q.1 ∧ 0 < q.2) ∧
    timed_loop_count qs = (qs.takeWhile continue_cond).length + 1 ∧
    frame_fixed_timed_calls lines_per_display fixed_value qs
      = (List.replicate (timed_loop_count qs)
          (frame_lines lines_per_display fixed_value)).flatten := by
  refine ⟨?_, ?_, ?_⟩
  · intro q
    simp [continue_cond]
  · induction qs with
    | nil => simp [timed_loop_count]
    | cons q rest ih =>
      by_cases h : continue_cond q
      · simp [timed_loop_count, List.takeWhile_cons, h, ih]
        omega
      · simp [timed_loop_count, List.takeWhile_cons, h]
  · induction qs with
    | nil => simp [frame_fixed_timed_calls, timed_loop_count]
    | cons q rest ih =>
      by_cases h : continue_cond q
      · rw [frame_fixed_timed_calls, if_pos h, ih, timed_loop_count, if_pos h,
          Nat.add_comm, List.replicate_succ, List.flatten_cons]
      · simp [frame_fixed_timed_calls, timed_loop_count, h]

lemma mem_frame_data_13_calls (g : Geometry) (comp : compensation_type)
    (stage : EPD_stage) (n : Nat) (line : Int) (offset : Nat)
    (hn : n < (frame_13_params comp stage).1)
    (hline : line ∈ step_lines g comp stage)
    (hoffset : offset < (frame_13_params comp stage).2.2) :
    emit_data_13 g stage (frame_13_params comp stage).1 n offset (line + (offset : Int))
      ∈ frame_data_13_calls g comp stage := by
  simp only [frame_data_13_calls, List.mem_flatMap, List.mem_map, List.mem_range]
  exact ⟨n, hn, line, hline, offset, hoffset, rfl⟩

/-- C6: in the stage schedulers a dummy line (sentinel `0x7fff`) is emitted
exactly when `pos < 0` or `pos > lines_per_display`; the boundary `pos =
lines_per_display` is emitted as a real line addressed to row
`lines_per_display`, and in `frame_data_13` such a non-blanking line passes
`one_line` the data offset `lines_per_display * bytes_per_line`, which is one
full row past the documented image buffer of `lines_per_display *
bytes_per_line` bytes (shown concretely for the 1.44-inch panel in band 0,
where the call with line 96 and offset 1536 = 96 * 16 is really issued). -/
theorem frame_13_pos_boundary (g : Geometry) (stage : EPD_stage)
    (value rep n offset : Nat) (pos : Int)
    (hL : g.lines_per_display < 0x7fff) :
    ((emit_data_13 g stage rep n offset pos).line = 0x7fff ↔
      (pos < 0 ∨ pos > (g.lines_per_display : Int))) ∧
    ((emit_fixed_13 (g.lines_per_display : Int) value stage rep n offset pos).line
        = 0x7fff ↔ (pos < 0 ∨ pos > (g.lines_per_display : Int))) ∧
    (¬(offset = 0 ∧ n = rep - 1) →
      emit_data_13 g stage rep n offset ((g.lines_per_display : Int))
        = { line := g.lines_per_display,
            data := some (g.lines_per_display * g.bytes_per_line),
            fixed_value := 0x00, stage := stage, border := 0x00 }) ∧
    ({ line := 96, data := some 1536, fixed_value := 0x00,
       stage := .EPD_inverse, border := 0x00 } : LineCall)
      ∈ frame_data_13_calls (geometry .EPD_1_44) (compensation_144 0) .EPD_inverse ∧
    1536 = (geometry .EPD_1_44).lines_per_display * (geometry .EPD_1_44).bytes_per_line := by
  refine ⟨?_, ?_, ?_, ?_, by decide⟩
  · unfold emit_data_13
    by_cases h1 : pos < 0 ∨ pos > (g.lines_per_display : Int)
    · rw [if_pos h1]
      simpa using h1
    · rw [if_neg h1]
      by_cases h2 : offset = 0 ∧ n = rep - 1
      · rw [if_pos h2]
        simp only
        constructor
        · intro h
          exact absurd h (by omega)
        · intro h
          exact absurd h h1
      · rw [if_neg h2]
        simp only
        constructor
        · intro h
          exact absurd h (by omega)
        · intro h
          exact absurd h h1
  · unfold emit_fixed_13
    by_cases h1 : pos < 0 ∨ pos > (g.lines_per_display : Int)
    · rw [if_pos h1]
      simpa using h1
    · rw [if_neg h1]
      by_cases h2 : offset = 0 ∧ n = rep - 1
      · rw [if_pos h2]
        simp only
        constructor
        · intro h
          exact absurd h (by omega)
        · intro h
          exact absurd h h1
      · rw [if_neg h2]
        simp only
        constructor
        · intro h
          exact absurd h (by omega)
        · intro h
          exact absurd h h1
  · intro h2
    unfold emit_data_13
    rw [if_neg (by omega), if_neg h2]
    simp
  · have hmem := mem_frame_data_13_calls (geometry .EPD_1_44) (compensation_144 0)
      .EPD_inverse 0 60 36 (by decide) (by decide) (by decide)
    have he : emit_data_13 (geometry .EPD_1_44) .EPD_inverse
        (frame_13_params (compensation_144 0) .EPD_inverse).1 0 36 (60 + ((36 : Nat) : Int))
        = { line := 96, data := some 1536, fixed_value := 0x00,
            stage := .EPD_inverse, border := 0x00 } := by
      decide
    rw [he] at hmem
    exact hmem

/-- Witness for C6 at the 2.0-inch panel. -/
theorem frame_13_pos_boundary_witness :
    (geometry .EPD_2_0).lines_per_display < 0x7fff ∧
    ((emit_data_13 (geometry .EPD_2_0) .EPD_inverse 2 0 3 96).line = 0x7fff ↔
      ((96 : Int) < 0 ∨ (96 : Int) > ((geometry .EPD_2_0).lines_per_display : Int))) :=
  ⟨by decide,
   (frame_13_pos_boundary (geometry .EPD_2_0) .EPD_inverse 0xff 2 0 3 96 (by decide)).1⟩

/-- The five control pins of the panel handle. -/
inductive PinName where
  | panel_on
  | border
  | discharge
  | reset
  | busy
deriving DecidableEq, Repr

/-- Observable actions of the power sequencer, in program order. -/
inductive DriverAct where
  | set_status (e : EPD_error)
  | pin_write (pin : PinName) (value : Nat)
  | spi_on
  | spi_off
  | delay_ms (ms : Nat)
  | delay_us (us : Nat)
  | spi_send (bytes : List Nat)
  | spi_read (bytes : List Nat)
  | busy_poll
  | power_off_run
deriving DecidableEq, Repr

/-- `power_off` (lines 422-439): reset, panel-on and border low, SPI off, then
ten discharge pulses with 10 ms between edges. -/
def power_off_trace : List DriverAct :=
  [.pin_write .reset 0, .pin_write .panel_on 0, .pin_write .border 0, .spi_off] ++
  ((List.range 10).flatMap fun _ =>
    [.delay_ms 10, .pin_write .discharge 1, .delay_ms 10, .pin_write .discharge 0])

/-- One iteration of the DC/DC bring-up loop of `EPD_begin` (lines 308-334):
positive charge pump on, 240 ms; negative charge pump on, 40 ms; Vcom on,
40 ms; then the DC-state read. -/
def dc_cycle_trace : List DriverAct :=
  [.spi_send [0x70, 0x05], .spi_send [0x72, 0x01], .delay_ms 240,
   .spi_send [0x70, 0x05], .spi_send [0x72, 0x03], .delay_ms 40,
   .spi_send [0x70, 0x05], .spi_send [0x72, 0x0f], .delay_ms 40,
   .spi_send [0x70, 0x0f], .spi_read [0x73, 0x00]]

/-- Result of the DC/DC bring-up loop: number of cycles run, whether bit 6 was
seen, and the emitted actions. -/
structure DcResult where
  cycles : Nat
  ok : Bool
  trace : List DriverAct
deriving DecidableEq, Repr

/-- The `for (i = 0; i < 4; ++i)` DC/DC loop of `EPD_begin` (lines 308-335),
over the list of remaining attempt indices.  `dc i` is the status byte the
`i`-th DC read returns; the loop breaks as soon as `0x40 == (0x40 & dc_state)`. -/
def dc_attempts (dc : Nat → Nat) : List Nat → DcResult
  | [] => ⟨0, false, []⟩
  | i :: rest =>
    if 0x40 &&& dc i = 0x40 then ⟨1, true, dc_cycle_trace⟩
    else
      let r := dc_attempts dc rest
      ⟨r.cycles + 1, r.ok, dc_cycle_trace ++ r.trace⟩

/-- `EPD_begin` power-up preamble (lines 217-251): the unconditional status
reset followed by the pin sequence, the busy-pin poll and the two COG-ID reads. -/
def begin_power_up_trace : List DriverAct :=
  [.set_status .EPD_OK,
   .pin_write .reset 0, .pin_write .panel_on 0, .pin_write .discharge 0,
   .pin_write .border 0,
   .spi_on, .delay_ms 5, .pin_write .panel_on 1, .delay_ms 10,
   .pin_write .reset 1, .pin_write .border 1, .delay_ms 5,
   .pin_write .reset 0, .delay_ms 5, .pin_write .reset 1, .delay_ms 5,
   .busy_poll,
   .spi_read [0x71, 0x00], .spi_read [0x71, 0x00]]

/-- The fixed register programming of `EPD_begin` (lines 272-304): power saving,
channel select (`cs`), high power osc, power settings, Vcom, driver latch
on/off, then 5 ms. -/
def begin_register_trace (cs : List Nat) : List DriverAct :=
  [.spi_send [0x70, 0x0b], .spi_send [0x72, 0x02],
   .spi_send [0x70, 0x01], .spi_send cs,
   .spi_send [0x70, 0x07], .spi_send [0x72, 0xd1],
   .spi_send [0x70, 0x08], .spi_send [0x72, 0x02],
   .spi_send [0x70, 0x09], .spi_send [0x72, 0xc2],
   .spi_send [0x70, 0x04], .spi_send [0x72, 0x03],
   .spi_send [0x70, 0x03], .spi_send [0x72, 0x01],
   .spi_send [0x70, 0x03], .spi_send [0x72, 0x00],
   .delay_ms 5]

/-- Result of a run of `EPD_begin`. -/
structure BeginResult where
  status : EPD_error
  pump_cycles : Nat
  power_off_called : Bool
  dc_trace : List DriverAct
  trace : List DriverAct
deriving DecidableEq, Repr

/-- `EPD_begin` (lines 215-347) given the probe answers: `cog_id` and
`broken_panel` are the second bytes of the COG-ID and breakage reads, `dc i`
the `i`-th DC-state read, `cs` the size-specific channel select. -/
def EPD_begin_run (cs : List Nat) (cog_id broken_panel : Nat)
    (dc : Nat → Nat) : BeginResult :=
  let t1 := begin_power_up_trace
  if 0x0f &&& cog_id ≠ 0x02 then
    { status := .EPD_UNSUPPORTED_COG, pump_cycles := 0, power_off_called := true,
      dc_trace := [],
      trace := t1 ++ [.set_status .EPD_UNSUPPORTED_COG, .power_off_run]
        ++ power_off_trace }
  else
    let t2 := t1 ++ [.spi_send [0x70, 0x02], .spi_send [0x72, 0x40],
                     .spi_send [0x70, 0x0f], .spi_read [0x73, 0x00]]
    if 0x80 &&& broken_panel = 0 then
      { status := .EPD_PANEL_BROKEN, pump_cycles := 0, power_off_called := true,
        dc_trace := [],
        trace := t2 ++ [.set_status .EPD_PANEL_BROKEN, .power_off_run]
          ++ power_off_trace }
    else
      let t3 := t2 ++ begin_register_trace cs
      let r := dc_attempts dc [0, 1, 2, 3]
      if r.ok then
        { status := .EPD_OK, pump_cycles := r.cycles, power_off_called := false,
          dc_trace := r.trace,
          trace := t3 ++ r.trace
            ++ [.spi_send [0x70, 0x02], .spi_send [0x72, 0x40], .spi_off] }
      else
        { status := .EPD_DC_FAILED, pump_cycles := r.cycles, power_off_called := true,
          dc_trace := r.trace,
          trace := t3 ++ r.trace ++ [.set_status .EPD_DC_FAILED, .power_off_run]
            ++ power_off_trace }

/-- Total milliseconds slept by the `Delay_ms` calls of a trace. -/
def total_delay_ms : List DriverAct → Nat
  | [] => 0
  | .delay_ms ms :: rest => ms + total_delay_ms rest
  | _ :: rest => total_delay_ms rest

/-- The status latched after replaying a trace over an initial status value. -/
def status_after (s : EPD_error) : List DriverAct → EPD_error
  | [] => s
  | .set_status e :: rest => status_after e rest
  | _ :: rest => status_after s rest

lemma status_after_append (s : EPD_error) (l1 l2 : List DriverAct) :
    status_after s (l1 ++ l2) = status_after (status_after s l1) l2 := by
  induction l1 generalizing s with
  | nil => rfl
  | cons a t ih => cases a <;> simp [status_after, ih]

lemma dc_attempts_no_set_status (dc : Nat → Nat) (l : List Nat) :
    ∀ s : EPD_error, status_after s (dc_attempts dc l).trace = s := by
  induction l with
  | nil => intro s; rfl
  | cons i rest ih =>
    intro s
    by_cases hc : 0x40 &&& dc i = 0x40
    · simp only [dc_attempts, if_pos hc]
      rfl
    · simp only [dc_attempts, if_neg hc]
      rw [status_after_append]
      exact ih _

/-- C7: during `begin`, with COG-ID low nibble 2 and the breakage probe
reporting bit 7 set, a first-attempt DC probe with bit 6 set ends with status
`OK`, exactly one charge-pump bring-up cycle and 240+40+40 ms of pump sleep,
and no `power_off`; a DC probe with bit 6 clear on all four attempts runs
exactly four bring-up cycles (4 * (240+40+40) ms of pump sleep), ends with
status `DCFailed`, and invokes `power_off` before returning. -/
theorem begin_dc_scenarios (cs : List Nat) (cog_id broken_panel : Nat)
    (dc : Nat → Nat)
    (hcog : 0x0f &&& cog_id = 0x02) (hbrk : 0x80 &&& broken_panel ≠ 0) :
    ((0x40 &&& dc 0 = 0x40) →
      (EPD_begin_run cs cog_id broken_panel dc).status = .EPD_OK ∧
      (EPD_begin_run cs cog_id broken_panel dc).pump_cycles = 1 ∧
      total_delay_ms (EPD_begin_run cs cog_id broken_panel dc).dc_trace
        = 240 + 40 + 40 ∧
      (EPD_begin_run cs cog_id broken_panel dc).power_off_called = false) ∧
    ((∀ i, i < 4 → 0x40 &&& dc i = 0) →
      (EPD_begin_run cs cog_id broken_panel dc).status = .EPD_DC_FAILED ∧
      (EPD_begin_run cs cog_id broken_panel dc).pump_cycles = 4 ∧
      total_delay_ms (EPD_begin_run cs cog_id broken_panel dc).dc_trace
        = 4 * (240 + 40 + 40) ∧
      (EPD_begin_run cs cog_id broken_panel dc).power_off_called = true ∧
      DriverAct.power_off_run ∈ (EPD_begin_run cs cog_id broken_panel dc).trace) := by
  have hc1 : ¬(0x0f &&& cog_id ≠ 0x02) := by simp [hcog]
  constructor
  · intro h0
    have hr : dc_attempts dc [0, 1, 2, 3] = ⟨1, true, dc_cycle_trace⟩ := by
      simp only [dc_attempts, if_pos h0]
    simp only [EPD_begin_run, if_neg hc1, if_neg hbrk, hr]
    refine ⟨?_, ?_, ?_, ?_⟩ <;> simp [total_delay_ms, dc_cycle_trace]
  · intro h4
    have ha := h4 0 (by omega)
    have hb := h4 1 (by omega)
    have hc := h4 2 (by omega)
    have hd := h4 3 (by omega)
    have hr : dc_attempts dc [0, 1, 2, 3]
        = ⟨4, false, dc_cycle_trace ++ (dc_cycle_trace ++ (dc_cycle_trace ++
            (dc_cycle_trace ++ [])))⟩ := by
      simp only [dc_attempts, ha, hb, hc, hd]
      norm_num
    simp only [EPD_begin_run, if_neg hc1, if_neg hbrk, hr]
    refine ⟨?_, ?_, ?_, ?_, ?_⟩ <;>
      simp [total_delay_ms, dc_cycle_trace, List.mem_append]

/-- Witness for C7: concrete probe answers for both scenarios. -/
theorem begin_dc_scenarios_witness :
    (0x0f &&& 0x12 = 0x02 ∧ 0x80 &&& 0x80 ≠ 0 ∧ 0x40 &&& 0x40 = 0x40) ∧
    ((EPD_begin_run [] 0x12 0x80 (fun _ => 0x40)).status = .EPD_OK ∧
     (EPD_begin_run [] 0x12 0x80 (fun _ => 0x40)).pump_cycles = 1 ∧
     total_delay_ms (EPD_begin_run [] 0x12 0x80 (fun _ => 0x40)).dc_trace
       = 240 + 40 + 40 ∧
     (EPD_begin_run [] 0x12 0x80 (fun _ => 0x40)).power_off_called = false) ∧
    ((EPD_begin_run [] 0x12 0x80 (fun _ => 0x00)).status = .EPD_DC_FAILED ∧
     (EPD_begin_run [] 0x12 0x80 (fun _ => 0x00)).pump_cycles = 4 ∧
     total_delay_ms (EPD_begin_run [] 0x12 0x80 (fun _ => 0x00)).dc_trace
       = 4 * (240 + 40 + 40) ∧
     (EPD_begin_run [] 0x12 0x80 (fun _ => 0x00)).power_off_called = true ∧
     DriverAct.power_off_run ∈ (EPD_begin_run [] 0x12 0x80 (fun _ => 0x00)).trace) :=
  ⟨⟨by decide, by decide, by decide⟩,
   (begin_dc_scenarios [] 0x12 0x80 (fun _ => 0x40) (by decide) (by decide)).1
     (by decide),
   (begin_dc_scenarios [] 0x12 0x80 (fun _ => 0x00) (by decide) (by decide)).2
     (fun i hi => by decide)⟩

/-- C10: `begin` resets the status to `OK` as its very first action, before any
pin write or probe, so the final status after replaying the trace of `begin`
does not depend on the status latched by a previous session, and the trace
replay agrees with the status `begin` returns. -/
theorem begin_resets_status_first (cs : List Nat) (cog_id broken_panel : Nat)
    (dc : Nat → Nat) (sa sb : EPD_error) :
    (EPD_begin_run cs cog_id broken_panel dc).trace.head?
        = some (.set_status .EPD_OK) ∧
    status_after sa (EPD_begin_run cs cog_id broken_panel dc).trace
      = status_after sb (EPD_begin_run cs cog_id broken_panel dc).trace ∧
    status_after sa (EPD_begin_run cs cog_id broken_panel dc).trace
      = (EPD_begin_run cs cog_id broken_panel dc).status := by
  by_cases hcog : 0x0f &&& cog_id ≠ 0x02
  · simp only [EPD_begin_run, if_pos hcog]
    exact ⟨rfl, rfl, rfl⟩
  · by_cases hbrk : 0x80 &&& broken_panel = 0
    · simp only [EPD_begin_run, if_neg hcog, if_pos hbrk]
      exact ⟨rfl, rfl, rfl⟩
    · by_cases hok : (dc_attempts dc [0, 1, 2, 3]).ok = true
      · simp only [EPD_begin_run, if_neg hcog, if_neg hbrk, if_pos hok]
        refine ⟨rfl, ?_, ?_⟩ <;>
          simp [status_after_append, dc_attempts_no_set_status, status_after,
            begin_power_up_trace, begin_register_trace, power_off_trace]
      · simp only [EPD_begin_run, if_neg hcog, if_neg hbrk, if_neg hok]
        refine ⟨rfl, ?_, ?_⟩ <;>
          simp [status_after_append, dc_attempts_no_set_status, status_after,
            begin_power_up_trace, begin_register_trace, power_off_trace]

/-- The panel handle `EPD_struct` (lines 74-100), with the pointer-valued
fields modelled by their contents (`channel_select` as the byte list,
`compensation` as the current record, `line_buffer` by its size). -/
structure EPD_state where
  pin_panel_on : Nat
  pin_border : Nat
  pin_discharge : Nat
  pin_reset : Nat
  pin_busy : Nat
  size : EPD_size
  lines_per_display : Nat
  dots_per_line : Nat
  bytes_per_line : Nat
  bytes_per_scan : Nat
  status : EPD_error
  channel_select : List Nat
  compensation : compensation_type
  temperature_offset : Nat
  line_buffer_size : Nat
deriving DecidableEq, Repr

/-- `EPD_set_temperature` (lines 442-484): select the temperature band
(`< 10` gives 0, `> 40` gives 2, otherwise 1), then point `compensation` at
the record for that band in the table of the handle's current panel size. -/
def EPD_set_temperature (epd : EPD_state) (temperature : Int) : EPD_state :=
  let offset : Nat :=
    if temperature < 10 then 0
    else if temperature > 40 then 2
    else 1
  let comp :=
    match epd.size with
    | .EPD_1_44 => compensation_144 offset
    | .EPD_2_0 => compensation_200 offset
    | .EPD_2_7 => compensation_270 offset
  { epd with temperature_offset := offset, compensation := comp }

/-- C8: `set_temperature(t)` selects band 0 for `t < 10`, band 2 for `t > 40`,
band 1 otherwise (so 9 gives 0, 10 and 40 give 1, 41 gives 2), repoints the
compensation record to that band of the current size's table, and changes no
other field of the handle. -/
theorem set_temperature_bands (epd : EPD_state) (t : Int) :
    (EPD_set_temperature epd t).temperature_offset
        = (if t < 10 then 0 else if t > 40 then 2 else 1) ∧
    (EPD_set_temperature epd t).compensation
        = (match epd.size with
           | .EPD_1_44 => compensation_144 (if t < 10 then 0 else if t > 40 then 2 else 1)
           | .EPD_2_0 => compensation_200 (if t < 10 then 0 else if t > 40 then 2 else 1)
           | .EPD_2_7 => compensation_270 (if t < 10 then 0 else if t > 40 then 2 else 1)) ∧
    (EPD_set_temperature epd 9).temperature_offset = 0 ∧
    (EPD_set_temperature epd 10).temperature_offset = 1 ∧
    (EPD_set_temperature epd 40).temperature_offset = 1 ∧
    (EPD_set_temperature epd 41).temperature_offset = 2 ∧
    (EPD_set_temperature epd t).pin_panel_on = epd.pin_panel_on ∧
    (EPD_set_temperature epd t).pin_border = epd.pin_border ∧
    (EPD_set_temperature epd t).pin_discharge = epd.pin_discharge ∧
    (EPD_set_temperature epd t).pin_reset = epd.pin_reset ∧
    (EPD_set_temperature epd t).pin_busy = epd.pin_busy ∧
    (EPD_set_temperature epd t).size = epd.size ∧
    (EPD_set_temperature epd t).lines_per_display = epd.lines_per_display ∧
    (EPD_set_temperature epd t).dots_per_line = epd.dots_per_line ∧
    (EPD_set_temperature epd t).bytes_per_line = epd.bytes_per_line ∧
    (EPD_set_temperature epd t).bytes_per_scan = epd.bytes_per_scan ∧
    (EPD_set_temperature epd t).status = epd.status ∧
    (EPD_set_temperature epd t).channel_select = epd.channel_select ∧
    (EPD_set_temperature epd t).line_buffer_size = epd.line_buffer_size := by
  refine ⟨rfl, ?_, ?_, ?_, ?_, ?_, rfl, rfl, rfl, rfl, rfl, rfl, rfl, rfl, rfl,
    rfl, rfl, rfl, rfl⟩
  · cases h : epd.size <;> simp [EPD_set_temperature, h]
  · norm_num [EPD_set_temperature]
  · norm_num [EPD_set_temperature]
  · norm_num [EPD_set_temperature]
  · norm_num [EPD_set_temperature]

/-- The per-handle resources `EPD_create` acquires: the handle allocation, the
line buffer allocation and the POSIX timer from `timer_create`. -/
structure Resources where
  handle : Bool
  line_buffer : Bool
  timer : Bool
deriving DecidableEq, Repr

/-- `EPD_destroy` (lines 197-205) as its effect on the resources `EPD_create`
acquired: a null handle is a no-op; otherwise `free(epd->line_buffer)` (when
non-null) and `free(epd)` run.  The function body contains no `timer_delete`
call, so the timer resource is left as it was. -/
def EPD_destroy (epd_is_null : Bool) (r : Resources) : Resources :=
  if epd_is_null then r
  else { handle := false, line_buffer := false, timer := r.timer }

/-- C9: `destroy` on a non-null handle frees the line buffer and the handle and
is a no-op on a null handle, but it never releases the timer that `create`
allocated with `timer_create`: after `destroy` the timer is still allocated,
so the claim that `destroy` releases the timer fails on the code. -/
theorem destroy_leaks_timer :
    EPD_destroy false ⟨true, true, true⟩ = ⟨false, false, true⟩ ∧
    (EPD_destroy false ⟨true, true, true⟩).timer = true ∧
    EPD_destroy true ⟨true, true, true⟩ = ⟨true, true, true⟩ := by
  decide
